import Mathlib

/-!
Verification of the line-oriented configuration patcher in `ebaws/openvpn.py`
(`ConfigLine.build`, `ConfigLine.raw`, `OpenVpn.set_config_value`,
`OpenVpn.load_config_file_lines`, `OpenVpn.update_config_file`) against its
natural-language specification.

The Python code is shallowly embedded: the mutable `ConfigLine` objects and the
`server_config_data` list become an immutable record and a list, in-place
mutation becomes functional update, and a raised exception (`NameError` from
the undefined name `value` at the insertion site, `AttributeError` from
`cmd_match.group` on a failed match) is modelled as `none` / `Option`.
Input lines are the strings produced by iterating a text file, i.e. they
contain no interior newline; the regex model below is derived for such lines.
-/

namespace EBStall

/-- Line-type constant `CONFIG_LINE_BLANK = 0` from openvpn.py. -/
def CONFIG_LINE_BLANK : Nat := 0

/-- Line-type constant `CONFIG_LINE_COMMENT = 1` from openvpn.py. -/
def CONFIG_LINE_COMMENT : Nat := 1

/-- Line-type constant `CONFIG_LINE_CMD_COMMENT = 2` (disabled directive). -/
def CONFIG_LINE_CMD_COMMENT : Nat := 2

/-- Line-type constant `CONFIG_LINE_CMD = 3` (active directive). -/
def CONFIG_LINE_CMD : Nat := 3

/-- Python whitespace, as used by `str.strip()` and by `\s` in the byte-string
regexes of openvpn.py: space, tab, newline, carriage return, vertical tab,
form feed. -/
def pyWs (c : Char) : Bool :=
  c = ' ' || c = '\t' || c = '\n' || c = '\r' || c = '\x0b' || c = '\x0c'

/-- Model of Python `str.strip()` on the character list of a line. -/
def pyStripList (l : List Char) : List Char :=
  ((l.dropWhile pyWs).reverse.dropWhile pyWs).reverse

/-- Model of Python `str.strip()`. -/
def pyStrip (s : String) : String :=
  String.mk (pyStripList s.data)

/-- Character class `[a-zA-Z0-9\-_]` of the directive-name token. -/
def isWordChar (c : Char) : Bool :=
  c.isAlphanum || c = '-' || c = '_'

/-- Whether the trailing-comment group `(\s*(#|;).+)` of the directive regex
matches the whole remainder `t` of the line: maximal run of `\s`, then `#` or
`;`, then at least one further character.  (`\s*` is effectively maximal
because whitespace and the markers are disjoint; `.+` reaches the end of a
newline-free line.) -/
def isCommentStart (t : List Char) : Bool :=
  match t.dropWhile pyWs with
  | [] => false
  | c :: rest => (c = '#' || c = ';') && !rest.isEmpty

/-- Resolution of the lazy group `(.+?)` followed by the optional trailing
comment group: scan left to right, give the lazy group at least one character,
and stop at the earliest position where the trailing-comment group matches the
whole remainder; if no such position exists the lazy group takes the whole
remainder and the comment group is `None`. -/
def splitParamsAux (acc : List Char) : List Char → (List Char × Option (List Char))
  | [] => (acc.reverse, none)
  | c :: rest =>
      if !acc.isEmpty && isCommentStart (c :: rest) then (acc.reverse, some (c :: rest))
      else splitParamsAux (c :: acc) rest

/-- Captured groups of the directive regex
`^\s*(;)?\s*([a-zA-Z0-9\-_]+)\s+(.+?)(\s*(#|;).+)?$`. -/
structure CmdMatch where
  g1 : Bool
  g2 : List Char
  g3 : List Char
  g4 : Option (List Char)
deriving Repr, DecidableEq

/-- Deterministic model of `re.match` for the directive regex on a stripped,
newline-free line: optional leading `;`, whitespace, a nonempty word token,
at least one whitespace character, then the lazy value / optional trailing
comment split of `splitParamsAux`.  `none` models a failed match. -/
def cmdMatch (s : List Char) : Option CmdMatch :=
  let s0 := s.dropWhile pyWs
  let p := match s0 with
    | ';' :: rest => (true, rest)
    | _ => (false, s0)
  let r1 := p.2.dropWhile pyWs
  let g2 := r1.takeWhile isWordChar
  if g2.isEmpty then none
  else
    let r2 := r1.drop g2.length
    let ws := r2.takeWhile pyWs
    if ws.isEmpty then none
    else
      let r3 := r2.drop ws.length
      if r3.isEmpty then none
      else
        let q := splitParamsAux [] r3
        some ⟨p.1, g2, q.1, q.2⟩

/-- One parsed configuration line, mirroring the fields of Python class
`ConfigLine`: `idx`, `_raw` (here `raw_`), `ltype`, `cmd`, `params`,
`comment`.  `Option` fields model Python `None`. -/
structure ConfigLine where
  idx : Option Nat
  raw_ : Option String
  ltype : Nat
  cmd : Option String
  params : String
  comment : Option String
deriving Repr, DecidableEq

/-- Python `'%s' % x` on a string-or-None value: `None` renders as `"None"`. -/
def pyStr : Option String → String
  | none => "None"
  | some s => s

/-- Model of `ConfigLine.build(line, idx)`: strip the line, classify blank,
then `#`-comment, then try the directive regex, then fall back to comment for
`;`-lines.  `none` models the `AttributeError` raised on line 75 of openvpn.py
when both `cmd_match` and `cmd_cmt_match` are `None` (`cmd_match.group(1)` on
`None`).  Fields left untouched by `build` keep the `__init__` defaults
(`cmd=None`, `params=''`, `comment=''`). -/
def build (line : String) (idx : Nat := 0) : Option ConfigLine :=
  let s := pyStripList line.data
  if s.isEmpty then
    some { idx := some idx, raw_ := some (String.mk s), ltype := CONFIG_LINE_BLANK,
           cmd := none, params := "", comment := some "" }
  else if s.head? = some '#' then
    some { idx := some idx, raw_ := some (String.mk s), ltype := CONFIG_LINE_COMMENT,
           cmd := none, params := "", comment := some "" }
  else
    match cmdMatch s with
    | some m =>
        some { idx := some idx, raw_ := some (String.mk s),
               ltype := if m.g1 then CONFIG_LINE_CMD_COMMENT else CONFIG_LINE_CMD,
               cmd := some (String.mk (pyStripList m.g2)),
               params := String.mk (pyStripList m.g3),
               comment := m.g4.map String.mk }
    | none =>
        if s.head? = some ';' then
          some { idx := some idx, raw_ := some (String.mk s), ltype := CONFIG_LINE_COMMENT,
                 cmd := none, params := "", comment := some "" }
        else none

/-- Model of the `ConfigLine.raw` property: blank and comment lines return the
stored `_raw` verbatim; directive lines are rebuilt as
`('' or ';') + '%s %s %s' % (cmd, params, comment)`. -/
def rawLine (cl : ConfigLine) : Option String :=
  if cl.ltype = CONFIG_LINE_COMMENT ∨ cl.ltype = CONFIG_LINE_BLANK then cl.raw_
  else some ((if cl.ltype = CONFIG_LINE_CMD then "" else ";") ++
             pyStr cl.cmd ++ " " ++ cl.params ++ " " ++ pyStr cl.comment)

/-- The mutable state of `OpenVpn` touched by the patcher:
`server_config_data` (assumed already loaded) and `server_config_modified`. -/
structure OpenVpnState where
  server_config_data : List ConfigLine
  server_config_modified : Bool
deriving Repr, DecidableEq

/-- Body of the left-to-right pass of `set_config_value` for one matched line
(lines 156-193 of openvpn.py): returns the possibly re-tagged line, whether
this line set `file_changed`, and the `values_set` index to mark (Python
`value_idx` when the branch stores into `values_set`). -/
def scvBody (cmd : String) (values : List String) (remove : Bool) (cfg : ConfigLine) :
    ConfigLine × Bool × Option Nat :=
  let isDesired := values.contains cfg.params || (remove && values.isEmpty)
  let valueIdx : Option Nat :=
    if ¬remove ∧ values.contains cfg.params then some (values.indexOf cfg.params) else none
  if isDesired then
    if cfg.ltype = CONFIG_LINE_CMD ∧ ¬remove then (cfg, false, valueIdx)
    else if cfg.ltype = CONFIG_LINE_CMD then ({ cfg with ltype := CONFIG_LINE_CMD_COMMENT }, true, none)
    else if cfg.ltype = CONFIG_LINE_CMD_COMMENT ∧ remove then (cfg, false, none)
    else ({ cfg with ltype := CONFIG_LINE_CMD }, true, valueIdx)
  else if cfg.ltype = CONFIG_LINE_CMD ∧ ¬remove then
    ({ cfg with ltype := CONFIG_LINE_CMD_COMMENT }, false, none)
  else (cfg, false, none)

/-- The `for idx, cfg in enumerate(...)` loop of `set_config_value`: threads
the running index, `last_cmd_idx`, `file_changed` and `values_set`, skipping
lines that are not directives of the requested name. -/
def scvLoop (cmd : String) (values : List String) (remove : Bool) :
    List ConfigLine → Nat → Nat → Bool → List Bool →
    (List ConfigLine × Nat × Bool × List Bool)
  | [], _, lastIdx, changed, vset => ([], lastIdx, changed, vset)
  | cfg :: rest, idx, lastIdx, changed, vset =>
      if (cfg.ltype = CONFIG_LINE_CMD ∨ cfg.ltype = CONFIG_LINE_CMD_COMMENT)
          ∧ cfg.cmd = some cmd then
        let b := scvBody cmd values remove cfg
        let vset' := match b.2.2 with
          | some i => vset.set i true
          | none => vset
        let r := scvLoop cmd values remove rest (idx + 1) idx (changed || b.2.1) vset'
        (b.1 :: r.1, r.2)
      else
        let r := scvLoop cmd values remove rest (idx + 1) lastIdx changed vset
        (cfg :: r.1, r.2)

/-- Model of `OpenVpn.set_config_value(cmd, values, remove)` with `values`
already normalized to a list (the Python code coerces `None` to `[]` and a
single value to a one-element list).  Returns the new state and `some changed`
on normal return.  `none` models the `NameError` raised on line 205
(`ConfigLine(..., params=value)` where the name `value` is undefined; the loop
variable is `cval`): it fires exactly when `remove` is false and some
requested value was not marked in `values_set`, before any insertion happens
and before `server_config_modified` is assigned. -/
def set_config_value (st : OpenVpnState) (cmd : String) (values : List String)
    (remove : Bool := false) : OpenVpnState × Option Bool :=
  let r := scvLoop cmd values remove st.server_config_data 0 0 false
             (List.replicate values.length false)
  let newLines := r.1
  let changed := r.2.2.1
  let vset := r.2.2.2
  if remove then
    ({ server_config_data := newLines, server_config_modified := changed }, some changed)
  else if vset.contains false then
    ({ server_config_data := newLines,
       server_config_modified := st.server_config_modified }, none)
  else
    ({ server_config_data := newLines, server_config_modified := changed }, some changed)

/-- A sequence of `set_config_value` calls, stopping (with the state current at
raise time) when a call raises. -/
def runCalls : OpenVpnState → List (String × List String × Bool) → OpenVpnState
  | st, [] => st
  | st, c :: cs =>
      let r := set_config_value st c.1 c.2.1 c.2.2
      match r.2 with
      | some _ => runCalls r.1 cs
      | none => r.1

/-- The configuration file on disk: `current = none` models a missing file;
`backups` collects the successive backup copies. -/
structure FileSystem where
  current : Option (List String)
  backups : List (List String)
deriving Repr, DecidableEq

/-- Modelled from the spec: `util.safe_create_with_backup` (module `util` is
not under src/) backs up the existing file, then opens the target for writing
(truncating it); per the spec the backup of the previous version is kept and
the file is then rewritten in full. -/
def safe_create_with_backup (fs : FileSystem) : FileSystem :=
  { current := some [], backups := fs.backups ++ fs.current.toList }

/-- The `for idx, line in enumerate(fh)` loop of `load_config_file_lines`:
build each line with its index; `none` propagates a `build` failure. -/
def buildAll (idx : Nat) : List String → Option (List ConfigLine)
  | [] => some []
  | l :: rest =>
      match build l idx with
      | none => none
      | some cl => (buildAll (idx + 1) rest).map (cl :: ·)

/-- Model of `OpenVpn.load_config_file_lines`: a missing file yields the empty
line list (not an error); an existing file is parsed line by line. -/
def load_config_file_lines (fs : FileSystem) : Option (List ConfigLine) :=
  match fs.current with
  | none => some []
  | some ls => buildAll 0 ls

/-- Model of `OpenVpn.update_config_file(force)`: if neither `force` nor
`server_config_modified`, return `False` with no write; otherwise back up and
rewrite the file with `cl.raw` for every line (each followed by a newline),
reset `server_config_modified`, and return `True`.  `none` models the
`TypeError` of `cl.raw + '\n'` when `raw` is `None`. -/
def update_config_file (st : OpenVpnState) (fs : FileSystem) (force : Bool := false) :
    Option (OpenVpnState × FileSystem × Bool) :=
  if ¬force ∧ ¬st.server_config_modified then some (st, fs, false)
  else
    match st.server_config_data.mapM rawLine with
    | none => none
    | some out =>
        let fs1 := safe_create_with_backup fs
        some ({ st with server_config_modified := false },
              { fs1 with current := some out }, true)

/-- Pointwise effect of the left-to-right pass on a single line: lines that
are not directives named `cmd` are untouched; matched lines go through
`scvBody`. -/
def lineStep (cmd : String) (values : List String) (remove : Bool) (cfg : ConfigLine) :
    ConfigLine :=
  if (cfg.ltype = CONFIG_LINE_CMD ∨ cfg.ltype = CONFIG_LINE_CMD_COMMENT)
      ∧ cfg.cmd = some cmd then
    (scvBody cmd values remove cfg).1
  else cfg

theorem scvLoop_fst (cmd : String) (values : List String) (remove : Bool) :
    ∀ (ls : List ConfigLine) (idx lastIdx : Nat) (changed : Bool) (vset : List Bool),
      (scvLoop cmd values remove ls idx lastIdx changed vset).1
        = ls.map (lineStep cmd values remove) := by
  intro ls
  induction ls with
  | nil => intro idx lastIdx changed vset; rfl
  | cons cfg rest ih =>
      intro idx lastIdx changed vset
      by_cases h : (cfg.ltype = CONFIG_LINE_CMD ∨ cfg.ltype = CONFIG_LINE_CMD_COMMENT)
          ∧ cfg.cmd = some cmd
      · simp only [scvLoop, if_pos h, List.map_cons, lineStep, ih]
      · simp only [scvLoop, if_neg h, List.map_cons, lineStep, ih]

theorem set_config_value_lines (st : OpenVpnState) (cmd : String) (values : List String)
    (remove : Bool) :
    (set_config_value st cmd values remove).1.server_config_data
      = st.server_config_data.map (lineStep cmd values remove) := by
  simp only [set_config_value]
  split
  · simp [scvLoop_fst]
  · split
    · simp [scvLoop_fst]
    · simp [scvLoop_fst]

theorem set_config_value_length (st : OpenVpnState) (cmd : String) (values : List String)
    (remove : Bool) :
    (set_config_value st cmd values remove).1.server_config_data.length
      = st.server_config_data.length := by
  rw [set_config_value_lines, List.length_map]

theorem runCalls_length_le (calls : List (String × List String × Bool)) :
    ∀ st : OpenVpnState,
      st.server_config_data.length ≤ (runCalls st calls).server_config_data.length := by
  induction calls with
  | nil => intro st; exact le_refl _
  | cons c cs ih =>
      intro st
      simp only [runCalls]
      rcases h : (set_config_value st c.1 c.2.1 c.2.2).2 with _ | b
      · simp only [h]
        exact (set_config_value_length st c.1 c.2.1 c.2.2).symm.le
      · simp only [h]
        calc st.server_config_data.length
            = (set_config_value st c.1 c.2.1 c.2.2).1.server_config_data.length :=
              (set_config_value_length st c.1 c.2.1 c.2.2).symm
          _ ≤ _ := ih _

theorem build_inert (l : String) (idx : Nat) (h1 : pyStripList l.data = l.data)
    (h2 : l.data = [] ∨ l.data.head? = some '#'
          ∨ (l.data.head? = some ';' ∧ cmdMatch l.data = none)) :
    ∃ t, build l idx = some { idx := some idx, raw_ := some l, ltype := t,
                              cmd := none, params := "", comment := some "" }
      ∧ (t = CONFIG_LINE_BLANK ∨ t = CONFIG_LINE_COMMENT) := by
  obtain ⟨data⟩ := l
  rcases h2 with h | h | ⟨h, hm⟩
  · rw [show data = [] from h] at h1 ⊢
    exact ⟨CONFIG_LINE_BLANK, rfl, Or.inl rfl⟩
  · rcases data with _ | ⟨c, t⟩
    · simp at h
    · have hc : c = '#' := by simpa using h
      subst hc
      refine ⟨CONFIG_LINE_COMMENT, ?_, Or.inr rfl⟩
      simp only [build]
      rw [show pyStripList (String.mk ('#' :: t)).data = '#' :: t from h1]
      simp
  · rcases data with _ | ⟨c, t⟩
    · simp at h
    · have hc : c = ';' := by simpa using h
      subst hc
      refine ⟨CONFIG_LINE_COMMENT, ?_, Or.inr rfl⟩
      simp only [build]
      rw [show pyStripList (String.mk (';' :: t)).data = ';' :: t from h1]
      simp [hm]

theorem rawLine_inert (cl : ConfigLine)
    (ht : cl.ltype = CONFIG_LINE_BLANK ∨ cl.ltype = CONFIG_LINE_COMMENT) :
    rawLine cl = cl.raw_ := by
  rcases ht with h | h <;> simp [rawLine, h, CONFIG_LINE_BLANK, CONFIG_LINE_COMMENT]

theorem buildAll_inert : ∀ (file : List String) (idx : Nat),
    (∀ l ∈ file, pyStripList l.data = l.data ∧
        (l.data = [] ∨ l.data.head? = some '#'
          ∨ (l.data.head? = some ';' ∧ cmdMatch l.data = none))) →
    ∃ doc, buildAll idx file = some doc ∧ doc.mapM rawLine = some file := by
  intro file
  induction file with
  | nil => intro idx _; exact ⟨[], rfl, rfl⟩
  | cons l rest ih =>
      intro idx h
      obtain ⟨h1, h2⟩ := h l (List.mem_cons_self l rest)
      obtain ⟨t, hb, ht⟩ := build_inert l idx h1 h2
      obtain ⟨doc, hba, hmap⟩ := ih (idx + 1) (fun x hx => h x (List.mem_cons_of_mem l hx))
      refine ⟨{ idx := some idx, raw_ := some l, ltype := t, cmd := none,
                params := "", comment := some "" } :: doc, ?_, ?_⟩
      · simp only [buildAll, hb, hba]
        rfl
      · have hr : rawLine { idx := some idx, raw_ := some l, ltype := t, cmd := none,
                            params := "", comment := some "" } = some l :=
          rawLine_inert _ ht
        simp only [List.mapM_cons, hr, hmap, Option.pure_def, Option.bind_eq_bind,
          Option.some_bind]

theorem set_config_value_modified (st : OpenVpnState) (cmd : String) (values : List String)
    (remove : Bool) :
    (set_config_value st cmd values remove).1.server_config_modified
      = match (set_config_value st cmd values remove).2 with
        | some ch => ch
        | none => st.server_config_modified := by
  simp only [set_config_value]
  split
  · rfl
  · split
    · rfl
    · rfl

/-- An active `port 1195` line, as produced by `ConfigLine.build` on
`"port 1195"`. -/
def portLine1195 : ConfigLine :=
  { idx := some 0, raw_ := some "port 1195", ltype := CONFIG_LINE_CMD,
    cmd := some "port", params := "1195", comment := none }

/-- An active `port 1194` line, as produced by `ConfigLine.build` on
`"port 1194"`. -/
def portLine1194 : ConfigLine :=
  { idx := some 0, raw_ := some "port 1194", ltype := CONFIG_LINE_CMD,
    cmd := some "port", params := "1194", comment := none }

/-- C1: the claimed idempotence (`changed=true` then `changed=false`) fails on
the code: on an empty document, the first `set_config_value('port','1194',
remove=False)` call reaches the insertion loop, whose line
`ConfigLine(..., params=value)` references the undefined name `value`
(the loop variable is `cval`), so the call raises `NameError` (modelled as
`none`) instead of returning `True`; the second call never runs. -/
theorem C1_first_call_raises :
    set_config_value { server_config_data := [], server_config_modified := false }
        "port" ["1194"] false
      = ({ server_config_data := [], server_config_modified := false }, none)
  ∧ runCalls { server_config_data := [], server_config_modified := false }
        [("port", ["1194"], false), ("port", ["1194"], false)]
      = { server_config_data := [], server_config_modified := false } :=
  ⟨rfl, rfl⟩

/-- C2: the claimed insertion of missing values fails on the code: on an empty
document, `set_config_value('port','1194',remove=False)` raises `NameError`
(undefined name `value` on the insertion line) before constructing any new
line, so no `ActiveDirective` `port 1194 ` is ever produced and no boolean is
returned. -/
theorem C2_insertion_raises :
    (set_config_value { server_config_data := [], server_config_modified := false }
        "port" ["1194"] false).2 = none
  ∧ (set_config_value { server_config_data := [], server_config_modified := false }
        "port" ["1194"] false).1.server_config_data = [] :=
  ⟨rfl, rfl⟩

/-- C3: on a document holding active `port 1195`, the call
`set_config_value('port','1194',remove=False)` does demote the stale line to
`CONFIG_LINE_CMD_COMMENT`, but the demoting branch (lines 190-193) never sets
`file_changed`, and the subsequent insertion of `1194` raises `NameError`
(undefined name `value`), so the call never returns `changed=true` and
`server_config_modified` keeps its previous value. -/
theorem C3_stale_demotion_then_raise :
    build "port 1195" 0 = some portLine1195
  ∧ set_config_value { server_config_data := [portLine1195], server_config_modified := false }
        "port" ["1194"] false
      = ({ server_config_data := [{ portLine1195 with ltype := CONFIG_LINE_CMD_COMMENT }],
           server_config_modified := false }, none) :=
  ⟨rfl, rfl⟩

/-- C5: no call of `set_config_value` ever deletes a line — over any sequence
of calls (stopping at a raised `NameError`) the length of
`server_config_data` is monotonically non-decreasing — and removing a
directive with one active occurrence of value `"1194"` re-tags that same line
as a disabled directive, keeping its value and trailing comment. -/
theorem C5_no_deletion :
    (∀ (st : OpenVpnState) (calls : List (String × List String × Bool)),
        st.server_config_data.length ≤ (runCalls st calls).server_config_data.length)
  ∧ (∀ (i : Option Nat) (raws : Option String) (c : String) (com : Option String) (m : Bool),
        set_config_value
            { server_config_data := [{ idx := i, raw_ := raws, ltype := CONFIG_LINE_CMD,
                                       cmd := some c, params := "1194", comment := com }],
              server_config_modified := m } c ["1194"] true
          = ({ server_config_data := [{ idx := i, raw_ := raws,
                                        ltype := CONFIG_LINE_CMD_COMMENT,
                                        cmd := some c, params := "1194", comment := com }],
               server_config_modified := true }, some true)) := by
  constructor
  · intro st calls
    exact runCalls_length_le calls st
  · intro i raws c com m
    simp [set_config_value, scvLoop, scvBody, CONFIG_LINE_CMD, CONFIG_LINE_CMD_COMMENT]

/-- C6: counterexample to `doc.dirty |= changed` — starting from a document
with `server_config_modified = true` whose single active line already carries
the requested value, the call returns `changed = some false` and the flag is
assigned (not OR-ed), ending `false` where the claim predicts
`true || false = true`. -/
theorem C6_counterexample :
    (set_config_value { server_config_data := [portLine1194], server_config_modified := true }
        "port" ["1194"] false).2 = some false
  ∧ ¬((set_config_value
        { server_config_data := [portLine1194], server_config_modified := true }
        "port" ["1194"] false).1.server_config_modified = (true || false)) :=
  ⟨rfl, by decide⟩

/-- C6 (amended): every `set_config_value` call that returns normally assigns
its `changed` result to `server_config_modified`, overwriting the previous
value; a call that raises `NameError` leaves the flag unchanged. -/
theorem C6_amended_flag_assigned (st : OpenVpnState) (cmd : String) (values : List String)
    (remove : Bool) :
    (∀ ch : Bool, (set_config_value st cmd values remove).2 = some ch →
        (set_config_value st cmd values remove).1.server_config_modified = ch)
  ∧ ((set_config_value st cmd values remove).2 = none →
        (set_config_value st cmd values remove).1.server_config_modified
          = st.server_config_modified) := by
  have h := set_config_value_modified st cmd values remove
  constructor
  · intro ch hch
    rw [h, hch]
  · intro hn
    rw [h, hn]

theorem C6_amended_flag_assigned_witness :
    (set_config_value { server_config_data := [], server_config_modified := true }
        "port" [] true).1.server_config_modified = false :=
  (C6_amended_flag_assigned { server_config_data := [], server_config_modified := true }
      "port" [] true).1 false rfl

/-- C7: frame property — any line that is not an active or disabled directive
named `cmd` (blank lines, comments, directives of another name) is returned
unmodified at its original index by `set_config_value`. -/
theorem C7_frame (st : OpenVpnState) (cmd : String) (values : List String) (remove : Bool)
    (i : Nat) (cl : ConfigLine)
    (hget : st.server_config_data[i]? = some cl)
    (hframe : (cl.ltype ≠ CONFIG_LINE_CMD ∧ cl.ltype ≠ CONFIG_LINE_CMD_COMMENT)
              ∨ cl.cmd ≠ some cmd) :
    (set_config_value st cmd values remove).1.server_config_data[i]? = some cl := by
  rw [set_config_value_lines, List.getElem?_map, hget]
  have hng : ¬((cl.ltype = CONFIG_LINE_CMD ∨ cl.ltype = CONFIG_LINE_CMD_COMMENT)
      ∧ cl.cmd = some cmd) := by
    rcases hframe with ⟨h1, h2⟩ | hc
    · rintro ⟨hc | hc, _⟩
      · exact h1 hc
      · exact h2 hc
    · rintro ⟨_, he⟩
      exact hc he
  simp [lineStep, hng]

theorem C7_frame_witness :
    (set_config_value
        { server_config_data := [{ idx := some 0, raw_ := some "# c",
                                   ltype := CONFIG_LINE_COMMENT, cmd := none,
                                   params := "", comment := some "" }],
          server_config_modified := false } "port" ["1194"] true).1.server_config_data[0]?
      = some { idx := some 0, raw_ := some "# c", ltype := CONFIG_LINE_COMMENT,
               cmd := none, params := "", comment := some "" } :=
  C7_frame _ "port" ["1194"] true 0 _ rfl (Or.inl (by decide))

/-- C9: loading when the target file does not exist returns the empty line
list rather than raising. -/
theorem C9_missing_file_loads_empty (bk : List (List String)) :
    load_config_file_lines { current := none, backups := bk } = some [] := rfl

theorem update_config_file_write (st : OpenVpnState) (fs : FileSystem) (force : Bool)
    (out : List String) (hmap : st.server_config_data.mapM rawLine = some out)
    (hf : force = true ∨ st.server_config_modified = true) :
    update_config_file st fs force
      = some ({ st with server_config_modified := false },
              { current := some out, backups := fs.backups ++ fs.current.toList },
              true) := by
  simp only [update_config_file]
  rw [hmap]
  split
  next hcc =>
    rcases hf with h | h
    · rw [h] at hcc
      exact absurd hcc.1 (by simp)
    · rw [h] at hcc
      exact absurd hcc.2 (by simp)
  next => rfl

/-- C4: counterexample to the byte-for-byte round-trip — loading the one-line
file `port 1194` and flushing with `force=true` writes back `port 1194 None`:
`build` stores `comment = None` (regex group 4 is unset) and the `raw`
property renders it through `'%s %s %s'` as the text `None`. -/
theorem C4_counterexample :
    load_config_file_lines { current := some ["port 1194"], backups := [] }
      = some [portLine1194]
  ∧ update_config_file
        { server_config_data := [portLine1194], server_config_modified := false }
        { current := some ["port 1194"], backups := [] } true
      = some ({ server_config_data := [portLine1194], server_config_modified := false },
              { current := some ["port 1194 None"], backups := [["port 1194"]] }, true)
  ∧ ("port 1194 None" : String) ≠ "port 1194" :=
  ⟨rfl, rfl, by decide⟩

/-- C4 (amended): the round-trip is byte-for-byte only for files whose every
line is already stripped and classifies as Blank or Comment (empty, starting
with `#`, or starting with `;` without matching the directive regex): loading
such a file and flushing with `force=true` rewrites exactly the original
lines (after backing up the previous file content). -/
theorem C4_amended_roundtrip (file : List String) (bk : List (List String)) (m : Bool)
    (h : ∀ l ∈ file, pyStripList l.data = l.data ∧
          (l.data = [] ∨ l.data.head? = some '#'
            ∨ (l.data.head? = some ';' ∧ cmdMatch l.data = none))) :
    ∃ doc, load_config_file_lines { current := some file, backups := bk } = some doc
      ∧ update_config_file { server_config_data := doc, server_config_modified := m }
            { current := some file, backups := bk } true
          = some ({ server_config_data := doc, server_config_modified := false },
                  { current := some file, backups := bk ++ [file] }, true) := by
  obtain ⟨doc, hba, hmap⟩ := buildAll_inert file 0 h
  refine ⟨doc, ?_, ?_⟩
  · simp [load_config_file_lines, hba]
  · exact update_config_file_write _ _ _ _ hmap (Or.inl rfl)

theorem C4_amended_roundtrip_witness :
    ∃ doc, load_config_file_lines
            { current := some ["# a", "", ";"], backups := [] } = some doc
      ∧ update_config_file { server_config_data := doc, server_config_modified := false }
            { current := some ["# a", "", ";"], backups := [] } true
          = some ({ server_config_data := doc, server_config_modified := false },
                  { current := some ["# a", "", ";"], backups := [["# a", "", ";"]] },
                  true) :=
  C4_amended_roundtrip ["# a", "", ";"] [] false (by decide)

/-- C8: counterexample to totality of `ConfigLine.build` — the line `port`
(a bare word, no value) matches neither the directive regex nor the `;`
fallback, so line 75 evaluates `cmd_match.group(1)` on `None` and raises
`AttributeError` (modelled as `none`). -/
theorem C8_counterexample : build "port" 0 = none := rfl

/-- C8 (amended): `build` fails only on lines whose stripped text is
nonempty, does not start with `#` or `;`, and fails the directive regex;
every `;`-starting line that fails the directive regex degrades to an
ordinary Comment, and in particular the line `;` alone classifies as
Comment, not as a disabled directive. -/
theorem C8_amended_leniency :
    (∀ line : String, (pyStripList line.data).head? = some ';' →
        cmdMatch (pyStripList line.data) = none →
        ∃ cl, build line = some cl ∧ cl.ltype = CONFIG_LINE_COMMENT)
  ∧ (∃ cl, build ";" = some cl ∧ cl.ltype = CONFIG_LINE_COMMENT)
  ∧ (∀ line : String, (∀ idx : Nat, build line idx = none) →
        pyStripList line.data ≠ [] ∧ (pyStripList line.data).head? ≠ some '#'
          ∧ (pyStripList line.data).head? ≠ some ';'
          ∧ cmdMatch (pyStripList line.data) = none) := by
  refine ⟨?_, ⟨_, rfl, rfl⟩, ?_⟩
  · intro line h1 h2
    simp only [build]
    rcases hs : pyStripList line.data with _ | ⟨c, t⟩
    · rw [hs] at h1
      simp at h1
    · rw [hs] at h1 h2
      have hc : c = ';' := by simpa using h1
      subst hc
      simp [h2, show (';' : Char) ≠ '#' from by decide]
  · intro line hall
    have h := hall 0
    simp only [build] at h
    rcases hs : pyStripList line.data with _ | ⟨c, t⟩ <;> rw [hs] at h
    · simp at h
    · rcases hm : cmdMatch (c :: t) with _ | mt
      · by_cases hc1 : c = '#'
        · subst hc1
          simp at h
        · by_cases hc2 : c = ';'
          · subst hc2
            rw [hm] at h
            simp at h
          · exact ⟨by simp, by simp [hc1], by simp [hc2], rfl⟩
      · by_cases hc1 : c = '#'
        · subst hc1
          simp at h
        · rw [hm] at h
          simp [hc1] at h

theorem C8_amended_leniency_witness :
    ∃ cl, build "; !" = some cl ∧ cl.ltype = CONFIG_LINE_COMMENT :=
  C8_amended_leniency.1 "; !" (by decide) (by decide)

/-- C10: flushing with `force=false` on a clean document performs no
filesystem write and returns `False`; otherwise (forced or dirty, and every
line renders) the file content is replaced by the rendered lines after a
backup of the previous content is taken, `server_config_modified` is reset to
`false`, and `True` is returned. -/
theorem C10_flush_gating :
    (∀ (st : OpenVpnState) (fs : FileSystem), st.server_config_modified = false →
        update_config_file st fs false = some (st, fs, false))
  ∧ (∀ (st : OpenVpnState) (fs : FileSystem) (force : Bool) (out : List String),
        st.server_config_data.mapM rawLine = some out →
        force = true ∨ st.server_config_modified = true →
        update_config_file st fs force
          = some ({ st with server_config_modified := false },
                  { current := some out, backups := fs.backups ++ fs.current.toList },
                  true)) := by
  constructor
  · intro st fs h
    simp [update_config_file, h]
  · intro st fs force out hmap hf
    exact update_config_file_write st fs force out hmap hf

theorem C10_flush_gating_witness :
    update_config_file { server_config_data := [], server_config_modified := true }
        { current := some ["old"], backups := [] } false
      = some ({ server_config_data := [], server_config_modified := false },
              { current := some [], backups := [["old"]] }, true) :=
  C10_flush_gating.2 { server_config_data := [], server_config_modified := true }
    { current := some ["old"], backups := [] } false [] rfl (Or.inr rfl)

end EBStall
